import Mathlib

/-!
Shallow embedding of the monday-bi-agent repository, covering the frontend
sources under `frontend/src` (App.jsx, api/monday.js, components/InputBar.jsx,
components/ActionTrace.jsx, components/DataQualityReport.jsx) and, where the
backend pipeline is referenced by the specification but its source is not part
of the bundle, definitions modelled from the spec (marked as such in their doc
comments).

JavaScript strings are modelled as Lean `String`s; the JS string operations the
code uses (`startsWith`, `trim`, truthiness of strings, `||` defaulting) are
given explicit executable models over the character list `String.data`.
JavaScript numbers appearing in the number-cleaning pipeline are modelled as
rationals (the concrete values in the claims are exactly representable).
-/

namespace MondayBI

/-- Model of JS `s.startsWith(p)`: `p` is a character-prefix of `s`. -/
def jsStartsWith (s p : String) : Bool :=
  p.data.isPrefixOf s.data

/-- Helper for `jsIncludes`: the pattern occurs contiguously in the list. -/
def listContains (p : List Char) : List Char → Bool
  | [] => p.isEmpty
  | c :: cs => p.isPrefixOf (c :: cs) || listContains p cs

/-- Model of JS `s.includes(p)`: `p` occurs contiguously inside `s`. -/
def jsIncludes (s p : String) : Bool :=
  listContains p.data s.data

/-- Model of JS `s.trim()`: strip leading and trailing whitespace. -/
def jsTrim (s : String) : String :=
  String.mk (((s.data.dropWhile Char.isWhitespace).reverse.dropWhile
      Char.isWhitespace).reverse)

/-- Model of the JS idiom `maybeString || fallback`: an absent or empty
(falsy) string falls through to the fallback. -/
def jsOrString (o : Option String) (fb : String) : String :=
  match o with
  | none => fb
  | some d => if d = "" then fb else d

/-! ## Wire data model (frontend view of the backend JSON) -/

/-- A conversation turn as sent on the wire: `{role, content}`. -/
structure ConversationTurn where
  role : String
  content : String
deriving Repr, DecidableEq

/-- Frontend view of the backend `data_quality_report` JSON object.  Counter
fields are `Option Nat` because the JSON may omit them (the component applies
`|| 0`); `summary` models the truthiness of `report.summary`. -/
structure FrontendReport where
  summary : Bool
  total_items : Option Nat
  missing_values : Option Nat
  unparseable_dates : Option Nat
  unparseable_numbers : Option Nat
  normalization_events : Option Nat
deriving Repr, DecidableEq

/-- The backend response body as the frontend receives it
(`{answer, action_trace, data_quality_report}`), plus an `extra` field
standing for any other field the backend might send, used to state that no
other field affects the UI. -/
structure ResponseData where
  answer : String
  action_trace : Option (List String)
  data_quality_report : Option FrontendReport
  extra : String
deriving Repr, DecidableEq

/-! ## api/monday.js -/

/-- A POST request as issued by axios: target URL and JSON body. -/
structure PostCall where
  url : String
  message : String
  history : List ConversationTurn
deriving Repr, DecidableEq

/-- Embedding of `sendQuery(message, history)` from `api/monday.js`.  The
axios transport is the opaque parameter `post` mapping an issued request to
the response body (`response.data`); the function result records the list of
POST requests issued together with the value the promise resolves to:

    const response = await axios.post API_BASE_URL/query {message, history}
    return response.data
-/
def sendQuery (post : PostCall → ResponseData) (baseUrl : String)
    (message : String) (history : List ConversationTurn) :
    List PostCall × ResponseData :=
  let call : PostCall := { url := baseUrl ++ "/query", message := message,
                           history := history }
  ([call], post call)

/-! ## App.jsx -/

/-- A chat message held in React state: role, content, and the optional
`responseTime` badge attached to assistant messages. -/
structure ChatMessage where
  role : String
  content : String
  responseTime : Option String
deriving Repr, DecidableEq

/-- The App.jsx state touched by `handleSend`. -/
structure AppState where
  messages : List ChatMessage
  actionTrace : List String
  dataQualityReport : Option FrontendReport
  loading : Bool
  traceOpen : Bool
deriving Repr, DecidableEq

/-- A JS error as caught in `handleSend`: `message` is the exception's
`.message`; `detail` models `error.response?.data?.detail` (absent when the
optional chain hits undefined). -/
structure JsError where
  message : String
  detail : Option String
deriving Repr, DecidableEq

/-- Outcome of the awaited `sendQuery` call: resolution with a response body
or rejection with an error. -/
inductive QueryOutcome where
  | success (response : ResponseData)
  | failure (error : JsError)
deriving Repr, DecidableEq

/-- The fixed fallback answer used on the failure path of `handleSend`. -/
def fallbackAnswer : String :=
  "Sorry, something went wrong. Please check that the backend is running and try again."

/-- The trace entry set at the start of `handleSend`. -/
def sendingEntry : String := "Sending query to agent..."

/-- Embedding of `handleSend(message)` from App.jsx.  The network outcome and
the elapsed-time string are parameters; the result is the final React state
after the `finally` block, paired with the `(message, history)` request that
was passed to `sendQuery`.  Line by line:

* `updatedMessages = [...messages, {role:"user", content:message}]`
* `setActionTrace(["Sending query to agent..."])`, `setTraceOpen(true)`
* `history = messages.map(m => ({role: m.role, content: m.content}))`
* success: assistant message with `response.answer`, trace replaced by
  `response.action_trace || []`, report by `response.data_quality_report || null`
* failure: assistant message with `error.response?.data?.detail || fallback`,
  trace extended by `` `❌ Error: ${error.message}` ``
* `finally`: `setLoading(false)`.
-/
def handleSend (st : AppState) (message : String) (outcome : QueryOutcome)
    (elapsed : String) : AppState × (String × List ConversationTurn) :=
  let userMessage : ChatMessage :=
    { role := "user", content := message, responseTime := none }
  let updatedMessages := st.messages ++ [userMessage]
  let history := st.messages.map
    (fun m => ({ role := m.role, content := m.content } : ConversationTurn))
  let final : AppState :=
    match outcome with
    | .success response =>
        let assistantMessage : ChatMessage :=
          { role := "assistant", content := response.answer,
            responseTime := some elapsed }
        { messages := updatedMessages ++ [assistantMessage]
          actionTrace := response.action_trace.getD []
          dataQualityReport := response.data_quality_report
          loading := false
          traceOpen := true }
    | .failure error =>
        let errorMessage : ChatMessage :=
          { role := "assistant"
            content := jsOrString error.detail fallbackAnswer
            responseTime := some elapsed }
        { messages := updatedMessages ++ [errorMessage]
          actionTrace := [sendingEntry] ++ ["❌ Error: " ++ error.message]
          dataQualityReport := st.dataQualityReport
          loading := false
          traceOpen := true }
  (final, (message, history))

/-! ## components/ActionTrace.jsx -/

/-- The colour of the timeline dot next to a trace step. -/
inductive DotColor where
  | success
  | failure
  | accent
deriving Repr, DecidableEq

/-- Embedding of the per-step tagging inside `ActionTrace`:

    const isSuccess = step.startsWith("✅");
    const isError = step.startsWith("❌");
    let dotColor = "var(--accent)";
    if (isSuccess) dotColor = "#22C55E";
    if (isError) dotColor = "#EF4444";
-/
def stepColor (step : String) : DotColor :=
  let isSuccess := jsStartsWith step "✅"
  let isError := jsStartsWith step "❌"
  let dotColor := DotColor.accent
  let dotColor := if isSuccess then DotColor.success else dotColor
  let dotColor := if isError then DotColor.failure else dotColor
  dotColor

/-- Embedding of the rendered list in `ActionTrace`: `steps.map(...)` renders
each step's text with its dot colour, in the order given. -/
def renderTrace (steps : List String) : List (String × DotColor) :=
  steps.map (fun step => (step, stepColor step))

/-! ## components/InputBar.jsx -/

/-- The InputBar state touched by `handleSubmit`: the controlled textarea
value and the `loading` prop. -/
structure InputState where
  message : String
  loading : Bool
deriving Repr, DecidableEq

/-- Embedding of `handleSubmit` from InputBar.jsx; both the Enter key path
(`handleKeyDown`) and the send button call this same function.  Returns the
new input state and the argument passed to `onSend` (`none` when `onSend` was
not invoked):

    const trimmed = message.trim();
    if (!trimmed || loading) return;
    onSend(trimmed);
    setMessage("");
-/
def handleSubmit (st : InputState) : InputState × Option String :=
  let trimmed := jsTrim st.message
  if trimmed = "" || st.loading then (st, none)
  else ({ st with message := "" }, some trimmed)

/-! ## components/DataQualityReport.jsx -/

/-- What the DataQualityReport component displays when it renders: the
summary line total and the four detail-grid values. -/
structure QualityView where
  totalIssues : Nat
  itemsShown : Nat
  missingShown : Nat
  badDatesShown : Nat
  badNumbersShown : Nat
deriving Repr, DecidableEq

/-- Embedding of the `DataQualityReport` component body: `none` models
`return null`; otherwise the rendered figures.

    if (!report || !report.summary) return null;
    const totalIssues = (report.missing_values || 0)
      + (report.unparseable_dates || 0) + (report.unparseable_numbers || 0);
    ...detail grid: total_items || 0, missing_values || 0,
    unparseable_dates || 0, unparseable_numbers || 0.
-/
def dataQualityReport (report : Option FrontendReport) : Option QualityView :=
  match report with
  | none => none
  | some r =>
    if !r.summary then none
    else
      some { totalIssues := r.missing_values.getD 0 + r.unparseable_dates.getD 0
                            + r.unparseable_numbers.getD 0
             itemsShown := r.total_items.getD 0
             missingShown := r.missing_values.getD 0
             badDatesShown := r.unparseable_dates.getD 0
             badNumbersShown := r.unparseable_numbers.getD 0 }

/-! ## Backend data model (spec-modelled: the backend Python sources
`agent.py` / `data_cleaner.py` are not part of the bundle; only the spec
describes them) -/

/-- Modelled from the spec: `QualityReport` — aggregate counters
`{total_items, missing_values, unparseable_dates, unparseable_numbers,
normalization_events, summary: bool}` accumulated across all CleanedItems in
a request (spec §3). -/
structure QualityReport where
  total_items : Nat
  missing_values : Nat
  unparseable_dates : Nat
  unparseable_numbers : Nat
  normalization_events : Nat
  summary : Bool
deriving Repr, DecidableEq

/-- Modelled from the spec: reports add counter-wise ("the QualityReport is a
strict sum of per-field outcomes across all items and boards", §4.2); the
`summary` presence flag of a sum is set when either part sets it. -/
instance : Add QualityReport :=
  ⟨fun a b =>
    { total_items := a.total_items + b.total_items
      missing_values := a.missing_values + b.missing_values
      unparseable_dates := a.unparseable_dates + b.unparseable_dates
      unparseable_numbers := a.unparseable_numbers + b.unparseable_numbers
      normalization_events := a.normalization_events + b.normalization_events
      summary := a.summary || b.summary }⟩

/-- Modelled from the spec: the empty QualityReport (all counters zero,
nothing to summarize). -/
instance : Zero QualityReport :=
  ⟨{ total_items := 0, missing_values := 0, unparseable_dates := 0,
     unparseable_numbers := 0, normalization_events := 0, summary := false }⟩

instance : AddCommMonoid QualityReport where
  add_assoc a b c := by
    have h : ∀ x y : QualityReport, x + y =
        { total_items := x.total_items + y.total_items
          missing_values := x.missing_values + y.missing_values
          unparseable_dates := x.unparseable_dates + y.unparseable_dates
          unparseable_numbers := x.unparseable_numbers + y.unparseable_numbers
          normalization_events :=
            x.normalization_events + y.normalization_events
          summary := x.summary || y.summary } := fun _ _ => rfl
    simp only [h, Nat.add_assoc, Bool.or_assoc]
  zero_add a := by
    have h : ∀ x y : QualityReport, x + y =
        { total_items := x.total_items + y.total_items
          missing_values := x.missing_values + y.missing_values
          unparseable_dates := x.unparseable_dates + y.unparseable_dates
          unparseable_numbers := x.unparseable_numbers + y.unparseable_numbers
          normalization_events :=
            x.normalization_events + y.normalization_events
          summary := x.summary || y.summary } := fun _ _ => rfl
    have hz : (0 : QualityReport) =
        { total_items := 0, missing_values := 0, unparseable_dates := 0,
          unparseable_numbers := 0, normalization_events := 0,
          summary := false } := rfl
    simp only [h, hz]
    simp
  add_zero a := by
    have h : ∀ x y : QualityReport, x + y =
        { total_items := x.total_items + y.total_items
          missing_values := x.missing_values + y.missing_values
          unparseable_dates := x.unparseable_dates + y.unparseable_dates
          unparseable_numbers := x.unparseable_numbers + y.unparseable_numbers
          normalization_events :=
            x.normalization_events + y.normalization_events
          summary := x.summary || y.summary } := fun _ _ => rfl
    have hz : (0 : QualityReport) =
        { total_items := 0, missing_values := 0, unparseable_dates := 0,
          unparseable_numbers := 0, normalization_events := 0,
          summary := false } := rfl
    simp only [h, hz]
    simp
  add_comm a b := by
    have h : ∀ x y : QualityReport, x + y =
        { total_items := x.total_items + y.total_items
          missing_values := x.missing_values + y.missing_values
          unparseable_dates := x.unparseable_dates + y.unparseable_dates
          unparseable_numbers := x.unparseable_numbers + y.unparseable_numbers
          normalization_events :=
            x.normalization_events + y.normalization_events
          summary := x.summary || y.summary } := fun _ _ => rfl
    simp only [h, Nat.add_comm, Bool.or_comm]
  nsmul := nsmulRec

/-! ## Number cleaning (spec-modelled) -/

/-- Modelled from the spec: characters stripped before numeric parsing —
currency symbols and thousands separators (§4.2 "strip currency symbols and
thousands separators"). -/
def isCurrencyOrSeparator (c : Char) : Bool :=
  c = '₹' || c = '$' || c = '€' || c = '£' || c = ',' || c = ' '

/-- Strip currency symbols and thousands separators from a raw string. -/
def stripSymbols (s : String) : String :=
  String.mk (s.data.filter (fun c => !isCurrencyOrSeparator c))

/-- Modelled from the spec: recognize a trailing magnitude suffix
case-insensitively (`K` → ×1e3, `M` → ×1e6, `Cr` → ×1e7); returns the body
without the suffix and the multiplier. -/
def splitSuffix (s : String) : String × Nat :=
  let low := String.mk (s.data.map Char.toLower)
  if ("rc".data).isPrefixOf low.data.reverse then
    (String.mk (s.data.take (s.data.length - 2)), 10000000)
  else if ("k".data).isPrefixOf low.data.reverse then
    (String.mk (s.data.take (s.data.length - 1)), 1000)
  else if ("m".data).isPrefixOf low.data.reverse then
    (String.mk (s.data.take (s.data.length - 1)), 1000000)
  else (s, 1)

/-- Parse a non-empty all-digit character list as a natural number. -/
def digitsToNat (cs : List Char) : Option Nat :=
  if cs = [] then none
  else if cs.all Char.isDigit then
    some (cs.foldl (fun acc c => acc * 10 + (c.toNat - 48)) 0)
  else none

/-- Modelled from the spec: parse a plain decimal literal (optional leading
minus, integer part, optional single fractional part) into an exact triple
(sign, mantissa, number of fractional digits), so that the denoted value is
`(-1)^sign * mantissa / 10^fracDigits`. -/
def parseDecimalParts (s : String) : Option (Bool × Nat × Nat) :=
  let (neg, body) :=
    if ("-".data).isPrefixOf s.data then (true, String.mk (s.data.drop 1))
    else (false, s)
  match body.data.splitOn '.' with
  | [ip] => (digitsToNat ip).map (fun n => (neg, n, 0))
  | [ip, fp] =>
    match digitsToNat ip, digitsToNat fp with
    | some i, some f => some (neg, i * 10 ^ fp.length + f, fp.length)
    | _, _ => none
  | _ => none

/-- The rational denoted by a parsed decimal triple. -/
def ratOfParts (p : Bool × Nat × Nat) : ℚ :=
  (if p.1 then -(p.2.1 : ℚ) else (p.2.1 : ℚ)) / (10 : ℚ) ^ p.2.2

/-- Modelled from the spec: parse a decimal literal into an exact rational;
the floating conversion of §4.2 is modelled over ℚ. -/
def parseDecimal (s : String) : Option ℚ :=
  (parseDecimalParts s).map ratOfParts

/-- Modelled from the spec: full number cleaning (§4.2): strip currency
symbols and thousands separators, recognize the trailing magnitude suffix
case-insensitively, convert to a (rational-modelled) floating value; `none`
models the `unparseable` outcome. -/
def cleanNumber (s : String) : Option ℚ :=
  let stripped := stripSymbols s
  let (body, mult) := splitSuffix stripped
  (parseDecimal body).map (fun q => q * (mult : ℚ))

/-- Modelled from the spec: per-field provenance flag of a CleanedItem
(`original`, `normalized`, `missing`, `unparseable`, §3). -/
inductive Provenance where
  | original
  | normalized
  | missing
  | unparseable
deriving Repr, DecidableEq

/-- Modelled from the spec: cleaning one numeric field against a running
report — on parse failure the field is marked `unparseable` and
`unparseable_numbers` is incremented (§4.2); the original string is kept. -/
def cleanNumberField (r : QualityReport) (s : String) :
    (Provenance × Option ℚ) × QualityReport :=
  match cleanNumber s with
  | some q => ((Provenance.original, some q), r)
  | none =>
    ((Provenance.unparseable, none),
     { r with unparseable_numbers := r.unparseable_numbers + 1 })

/-! ## Quality-report accumulation (spec-modelled) -/

/-- Modelled from the spec: the outcome of cleaning one field — the
provenance flag together with which counter it feeds (§4.2: text
empty-after-trim is `missing`; date and number parse failures are
`unparseable` feeding their own counters; a status lookup hit counts a
normalization event). -/
inductive FieldOutcome where
  | original
  | normalizedValue
  | missingValue
  | unparseableDate
  | unparseableNumber
deriving Repr, DecidableEq

/-- Modelled from the spec: the QualityReport contribution of one field
outcome (§4.2, §3). -/
def outcomeReport : FieldOutcome → QualityReport
  | .original => 0
  | .normalizedValue => { (0 : QualityReport) with normalization_events := 1 }
  | .missingValue => { (0 : QualityReport) with missing_values := 1 }
  | .unparseableDate => { (0 : QualityReport) with unparseable_dates := 1 }
  | .unparseableNumber => { (0 : QualityReport) with unparseable_numbers := 1 }

/-- Modelled from the spec: a cleaned item, reduced to the per-field outcomes
that feed the QualityReport. -/
def CleanedItem : Type := List FieldOutcome

/-- Modelled from the spec: the per-item QualityReport — the strict sum of
the item's per-field outcomes, counting the item itself in `total_items`. -/
def itemReport (item : CleanedItem) : QualityReport :=
  { (item.map outcomeReport).sum with total_items := 1 }

/-- Modelled from the spec: cleaning a sequence of items yields the sum of
the per-item reports ("accumulated across all CleanedItems in a request",
§3; "a strict sum of per-field outcomes across all items", §4.2). -/
def cleanReport (items : List CleanedItem) : QualityReport :=
  (items.map itemReport).sum

/-! ## Pipeline orchestration (spec-modelled) -/

/-- Modelled from the spec: `QueryPlan` (§3) — the fields the orchestrator
branches on; filters and metrics are kept abstract as they do not affect the
claims settled here. -/
structure QueryPlan where
  boards : List String
  needs_clarification : Bool
  clarification_question : Option String
deriving Repr, DecidableEq

/-- Modelled from the spec: `ResponseEnvelope` (§3) as the backend produces
it — `{answer, action_trace, data_quality_report}`. -/
structure ResponseEnvelope where
  answer : String
  action_trace : List String
  data_quality_report : QualityReport
deriving Repr, DecidableEq

/-- Modelled from the spec: the Pipeline Orchestrator (§4.5), restricted to
the success path and the clarification short-circuit of §4.1: one trace entry
on entry to each state, and when the plan has `needs_clarification=true` the
fetch/clean/aggregate/compose stages are skipped, the clarification question
is returned as the answer and the QualityReport is empty.  The external fetch
(per board, merged in plan order) and the composing LLM call are opaque
parameters. -/
def orchestrate (fetch : String → List CleanedItem)
    (compose : QualityReport → String) (plan : QueryPlan) : ResponseEnvelope :=
  let trace0 := ["PLANNING"]
  if plan.needs_clarification then
    { answer := (plan.clarification_question).getD
        "Could you rephrase your question?"
      action_trace := trace0 ++ ["✅ CLARIFYING"]
      data_quality_report := 0 }
  else
    let items := (plan.boards.map fetch).flatten
    let report := cleanReport items
    { answer := compose report
      action_trace := trace0 ++
        ["FETCHING", "CLEANING", "AGGREGATING", "COMPOSING", "✅ DONE"]
      data_quality_report := { report with summary := true } }

/-! ## Helper lemmas -/

/-- A string starts with any string it extends on the right. -/
theorem jsStartsWith_append (p m : String) : jsStartsWith (p ++ m) p = true := by
  simp only [jsStartsWith, String.data_append, List.isPrefixOf_iff_prefix]
  exact List.prefix_append _ _

/-- No string starts with both the success marker and the failure marker. -/
theorem markers_exclusive (s : String) :
    ¬(jsStartsWith s "✅" = true ∧ jsStartsWith s "❌" = true) := by
  rintro ⟨h1, h2⟩
  simp only [jsStartsWith, List.isPrefixOf_iff_prefix] at h1 h2
  cases hs : s.data with
  | nil => rw [hs] at h1; exact absurd (List.eq_nil_of_prefix_nil h1) (by simp)
  | cons c cs =>
    rw [hs] at h1 h2
    obtain ⟨t1, e1⟩ := h1
    obtain ⟨t2, e2⟩ := h2
    simp only [List.cons_append, List.nil_append] at e1 e2
    injection e1 with e1h _
    injection e2 with e2h _
    rw [← e1h] at e2h
    exact absurd e2h (by decide)

/-- Cleaning a concatenation of item sequences sums the two reports. -/
theorem cleanReport_append (xs ys : List CleanedItem) :
    cleanReport (xs ++ ys) = cleanReport xs + cleanReport ys := by
  simp [cleanReport, List.sum_append]

/-- Cleaning the flattening of a partition sums the per-part reports. -/
theorem cleanReport_flatten (parts : List (List CleanedItem)) :
    cleanReport parts.flatten = (parts.map cleanReport).sum := by
  induction parts with
  | nil => rfl
  | cons p ps ih => simp [cleanReport_append, ih]

/-! ## Claims -/

/-- C1: every call `sendQuery(message, history)` issues exactly one POST
request, to `${API_BASE_URL}/query`, whose body is exactly the object
`{message, history}`, and the value the promise resolves to is the response
body unchanged, so the caller receives the `answer`, `action_trace` and
`data_quality_report` fields exactly as the backend sent them. -/
theorem C1_sendQuery_wire_contract (post : PostCall → ResponseData)
    (baseUrl message : String) (history : List ConversationTurn) :
    (sendQuery post baseUrl message history).1 =
      [{ url := baseUrl ++ "/query", message := message, history := history }] ∧
    (sendQuery post baseUrl message history).2 =
      post { url := baseUrl ++ "/query", message := message,
             history := history } ∧
    (sendQuery post baseUrl message history).2.answer =
      (post { url := baseUrl ++ "/query", message := message,
              history := history }).answer ∧
    (sendQuery post baseUrl message history).2.action_trace =
      (post { url := baseUrl ++ "/query", message := message,
              history := history }).action_trace ∧
    (sendQuery post baseUrl message history).2.data_quality_report =
      (post { url := baseUrl ++ "/query", message := message,
              history := history }).data_quality_report :=
  ⟨rfl, rfl, rfl, rfl, rfl⟩

/-- C2 (counterexample to the claim as stated): on a failed request the trace
entry appended by `handleSend` embeds the exception's `.message` verbatim —
here the internal message `ECONNREFUSED` appears as-is inside the trace entry
shown to the user — so "internal exception details are never exposed
verbatim" is false for the frontend error path. -/
theorem C2_counterexample :
    ((handleSend ⟨[], [], none, false, false⟩ "hi"
        (.failure ⟨"ECONNREFUSED", none⟩) "0.1").1).actionTrace =
      [sendingEntry, "❌ Error: ECONNREFUSED"] ∧
    jsIncludes "❌ Error: ECONNREFUSED" "ECONNREFUSED" = true :=
  ⟨rfl, by decide⟩

/-- C2 (amended): on every failed request an assistant message is appended
whose content is the backend-supplied detail when present and non-empty,
otherwise the fixed friendly fallback, and a trace entry marked as failure
(leading `❌`) is appended; the answer string is built only from the detail or
the fallback, but the failure trace entry embeds the exception's message text
verbatim as `"❌ Error: " ++ error.message`. -/
theorem C2_failure_path (st : AppState) (msg elapsed : String) (err : JsError) :
    ((handleSend st msg (.failure err) elapsed).1).messages =
      st.messages ++
        [{ role := "user", content := msg, responseTime := none },
         { role := "assistant", content := jsOrString err.detail fallbackAnswer,
           responseTime := some elapsed }] ∧
    ((handleSend st msg (.failure err) elapsed).1).actionTrace =
      [sendingEntry, "❌ Error: " ++ err.message] ∧
    jsStartsWith ("❌ Error: " ++ err.message) "❌" = true := by
  refine ⟨by simp [handleSend], rfl, ?_⟩
  have h : ("❌ Error: " : String) = "❌" ++ " Error: " := by decide
  rw [h, String.append_assoc]
  exact jsStartsWith_append _ _

/-- C3: a rendered action-trace entry is tagged success (green dot) iff its
text starts with `✅`, failure (red dot) iff it starts with `❌`, and neutral
(accent dot) otherwise, and rendering preserves the given order of the
entries. -/
theorem C3_trace_tagging (steps : List String) :
    (renderTrace steps).map Prod.fst = steps ∧
    ∀ s : String,
      (stepColor s = DotColor.success ↔ jsStartsWith s "✅" = true) ∧
      (stepColor s = DotColor.failure ↔ jsStartsWith s "❌" = true) ∧
      (stepColor s = DotColor.accent ↔
        (jsStartsWith s "✅" = false ∧ jsStartsWith s "❌" = false)) := by
  constructor
  · induction steps with
    | nil => rfl
    | cons a t ih =>
      simp only [renderTrace, List.map_cons] at ih ⊢
      rw [ih]
  · intro s
    have hex := markers_exclusive s
    unfold stepColor
    cases h1 : jsStartsWith s "✅" <;> cases h2 : jsStartsWith s "❌" <;>
      simp_all

/-- C4: on a successful response the UI state is derived from exactly the
three envelope fields — the assistant message content is `response.answer`,
the trace is replaced by `response.action_trace` (empty list when absent),
the quality report is replaced by `response.data_quality_report` (null when
absent) — and changing any other response field leaves the resulting state
unchanged. -/
theorem C4_success_state (st : AppState) (msg elapsed : String)
    (resp : ResponseData) :
    ((handleSend st msg (.success resp) elapsed).1).messages =
      st.messages ++
        [{ role := "user", content := msg, responseTime := none },
         { role := "assistant", content := resp.answer,
           responseTime := some elapsed }] ∧
    ((handleSend st msg (.success resp) elapsed).1).actionTrace =
      resp.action_trace.getD [] ∧
    ((handleSend st msg (.success resp) elapsed).1).dataQualityReport =
      resp.data_quality_report ∧
    (∀ other : String,
      (handleSend st msg (.success { resp with extra := other }) elapsed).1 =
        (handleSend st msg (.success resp) elapsed).1) := by
  exact ⟨by simp [handleSend], rfl, rfl, fun other => rfl⟩

/-- C5: each `handleSend` appends exactly one user turn and then exactly one
assistant turn — on both the success and the failure path — leaving the prior
turns unchanged and in order, and the history sent with the query is exactly
the prior turns in order, each projected to `{role, content}`, not including
the message being sent. -/
theorem C5_append_only_history (st : AppState) (msg elapsed : String)
    (outcome : QueryOutcome) :
    (∃ a : ChatMessage, a.role = "assistant" ∧
      ((handleSend st msg outcome elapsed).1).messages =
        st.messages ++
          [{ role := "user", content := msg, responseTime := none }, a]) ∧
    (handleSend st msg outcome elapsed).2 =
      (msg, st.messages.map
        (fun m => ({ role := m.role, content := m.content } :
          ConversationTurn))) := by
  cases outcome with
  | success resp =>
    exact ⟨⟨{ role := "assistant", content := resp.answer,
              responseTime := some elapsed }, rfl, by simp [handleSend]⟩, rfl⟩
  | failure err =>
    exact ⟨⟨{ role := "assistant",
              content := jsOrString err.detail fallbackAnswer,
              responseTime := some elapsed }, rfl, by simp [handleSend]⟩, rfl⟩

/-- Evaluation helper: a cleaned number from its suffix split and parsed
decimal parts. -/
theorem cleanNumber_eval (s body : String) (mult : Nat) (neg : Bool)
    (man k : Nat) (h1 : splitSuffix (stripSymbols s) = (body, mult))
    (h2 : parseDecimalParts body = some (neg, man, k)) :
    cleanNumber s = some (ratOfParts (neg, man, k) * (mult : ℚ)) := by
  simp [cleanNumber, parseDecimal, h1, h2]

/-- C6: number cleaning strips currency symbols and thousands separators,
recognizes trailing magnitude suffixes case-insensitively (`K`→×1e3,
`M`→×1e6, `Cr`→×1e7), maps `"₹1.2Cr"` to `12000000.0` and `"3.5K"` to
`3500.0`, and on every string it cannot parse it marks the field unparseable
and increments `unparseable_numbers` (the cleaning function is total, so it
never crashes). -/
theorem C6_number_cleaning :
    cleanNumber "₹1.2Cr" = some 12000000 ∧
    cleanNumber "3.5K" = some 3500 ∧
    cleanNumber "2k" = some 2000 ∧
    cleanNumber "2M" = some 2000000 ∧
    cleanNumber "2m" = some 2000000 ∧
    cleanNumber "2cr" = some 20000000 ∧
    cleanNumber "1,200" = some 1200 ∧
    (∀ (r : QualityReport) (s : String), cleanNumber s = none →
      (cleanNumberField r s).1 = (Provenance.unparseable, none) ∧
      (cleanNumberField r s).2 =
        { r with unparseable_numbers := r.unparseable_numbers + 1 }) := by
  refine ⟨?_, ?_, ?_, ?_, ?_, ?_, ?_, ?_⟩
  · rw [cleanNumber_eval _ "1.2" 10000000 false 12 1 (by decide) (by decide)]
    norm_num [ratOfParts]
  · rw [cleanNumber_eval _ "3.5" 1000 false 35 1 (by decide) (by decide)]
    norm_num [ratOfParts]
  · rw [cleanNumber_eval _ "2" 1000 false 2 0 (by decide) (by decide)]
    norm_num [ratOfParts]
  · rw [cleanNumber_eval _ "2" 1000000 false 2 0 (by decide) (by decide)]
    norm_num [ratOfParts]
  · rw [cleanNumber_eval _ "2" 1000000 false 2 0 (by decide) (by decide)]
    norm_num [ratOfParts]
  · rw [cleanNumber_eval _ "2" 10000000 false 2 0 (by decide) (by decide)]
    norm_num [ratOfParts]
  · rw [cleanNumber_eval _ "1200" 1 false 1200 0 (by decide) (by decide)]
    norm_num [ratOfParts]
  · intro r s h
    simp [cleanNumberField, h]

/-- Witness for C6: the non-numeric string `"not a number"` is reported
unparseable and bumps the counter of the concrete running report. -/
theorem C6_number_cleaning_witness :
    cleanNumber "not a number" = none ∧
    (cleanNumberField ⟨5, 1, 2, 3, 4, true⟩ "not a number").1 =
      (Provenance.unparseable, none) ∧
    (cleanNumberField ⟨5, 1, 2, 3, 4, true⟩ "not a number").2 =
      { (⟨5, 1, 2, 3, 4, true⟩ : QualityReport) with
        unparseable_numbers := (⟨5, 1, 2, 3, 4, true⟩ :
          QualityReport).unparseable_numbers + 1 } := by
  have h : cleanNumber "not a number" = none := by decide
  have hfield := (C6_number_cleaning).2.2.2.2.2.2.2 ⟨5, 1, 2, 3, 4, true⟩
    "not a number" h
  exact ⟨h, hfield.1, hfield.2⟩

/-- C7: when the QueryPlan carries `needs_clarification=true` the pipeline
short-circuits — the envelope's quality report is empty, no trace entry
mentions the FETCHING or CLEANING stages, and the clarification question is
returned as the answer. -/
theorem C7_clarification_short_circuit (fetch : String → List CleanedItem)
    (compose : QualityReport → String) (plan : QueryPlan)
    (h : plan.needs_clarification = true) :
    (orchestrate fetch compose plan).data_quality_report = 0 ∧
    (∀ e ∈ (orchestrate fetch compose plan).action_trace,
      jsIncludes e "FETCHING" = false ∧ jsIncludes e "CLEANING" = false) ∧
    (∀ q, plan.clarification_question = some q →
      (orchestrate fetch compose plan).answer = q) := by
  refine ⟨by simp [orchestrate, h], ?_, ?_⟩
  · intro e he
    simp [orchestrate, h] at he
    rcases he with rfl | rfl
    · exact ⟨by decide, by decide⟩
    · exact ⟨by decide, by decide⟩
  · intro q hq
    simp [orchestrate, h, hq]

/-- Witness for C7: a concrete clarification plan short-circuits. -/
theorem C7_clarification_witness :
    (orchestrate (fun _ => []) (fun _ => "ok")
      ⟨["deals"], true, some "Which quarter do you mean?"⟩).data_quality_report
        = 0 ∧
    (∀ e ∈ (orchestrate (fun _ => []) (fun _ => "ok")
      ⟨["deals"], true, some "Which quarter do you mean?"⟩).action_trace,
      jsIncludes e "FETCHING" = false ∧ jsIncludes e "CLEANING" = false) ∧
    (orchestrate (fun _ => []) (fun _ => "ok")
      ⟨["deals"], true, some "Which quarter do you mean?"⟩).answer =
        "Which quarter do you mean?" := by
  have h := C7_clarification_short_circuit (fun _ => []) (fun _ => "ok")
    ⟨["deals"], true, some "Which quarter do you mean?"⟩ rfl
  exact ⟨h.1, h.2.1, h.2.2 _ rfl⟩

/-- C8: QualityReport accumulation is a strict, order-independent sum —
cleaning a concatenation of two item sequences sums the two reports, and for
every partition of the item sequence, summing the per-part reports in any
order equals cleaning the whole sequence at once. -/
theorem C8_quality_sum_order_independent
    (parts : List (List CleanedItem)) (reports : List QualityReport)
    (h : (parts.map cleanReport).Perm reports) :
    reports.sum = cleanReport parts.flatten ∧
    (∀ xs ys : List CleanedItem,
      cleanReport (xs ++ ys) = cleanReport xs + cleanReport ys) := by
  refine ⟨?_, cleanReport_append⟩
  rw [← h.sum_eq, cleanReport_flatten]

/-- Witness for C8: the partition `[[A, B], [C]]` with its per-part reports
summed in reversed order equals cleaning `[A, B, C]` directly. -/
theorem C8_quality_sum_witness :
    ([cleanReport [[FieldOutcome.unparseableNumber,
        FieldOutcome.normalizedValue]],
      cleanReport [[FieldOutcome.missingValue], [FieldOutcome.unparseableDate]]]
        : List QualityReport).sum =
      cleanReport [[FieldOutcome.missingValue], [FieldOutcome.unparseableDate],
        [FieldOutcome.unparseableNumber, FieldOutcome.normalizedValue]] ∧
    (∀ xs ys : List CleanedItem,
      cleanReport (xs ++ ys) = cleanReport xs + cleanReport ys) := by
  have h := C8_quality_sum_order_independent
    [[[FieldOutcome.missingValue], [FieldOutcome.unparseableDate]],
     [[FieldOutcome.unparseableNumber, FieldOutcome.normalizedValue]]]
    [cleanReport [[FieldOutcome.unparseableNumber,
        FieldOutcome.normalizedValue]],
     cleanReport [[FieldOutcome.missingValue], [FieldOutcome.unparseableDate]]]
    (List.Perm.swap _ _ _)
  simpa using h

/-- C9: the input bar submits only when the trimmed message is non-empty and
no request is in flight, passes exactly the trimmed message to `onSend`,
clears the field immediately after a successful submit, and leaves the state
untouched otherwise; the Enter key and the send button both go through this
same `handleSubmit`. -/
theorem C9_input_guard (st : InputState) :
    ((handleSubmit st).2 ≠ none ↔
      (jsTrim st.message ≠ "" ∧ st.loading = false)) ∧
    (∀ t, (handleSubmit st).2 = some t →
      t = jsTrim st.message ∧ ((handleSubmit st).1).message = "") ∧
    ((handleSubmit st).2 = none → (handleSubmit st).1 = st) := by
  unfold handleSubmit
  rcases st with ⟨m, l⟩
  by_cases he : jsTrim m = "" <;> cases l <;> simp [he]

/-- Witness for C9: the concrete state with message `"  hi "` and no request
in flight submits the trimmed `"hi"` and clears the field. -/
theorem C9_input_guard_witness :
    ("hi" : String) = jsTrim "  hi " ∧
    ((handleSubmit ⟨"  hi ", false⟩).1).message = "" :=
  (C9_input_guard ⟨"  hi ", false⟩).2.1 "hi" (by decide)

/-- C10: the DataQualityReport component renders nothing for an absent report
or one whose summary flag is falsy; otherwise the displayed issue total is
`missing_values + unparseable_dates + unparseable_numbers` with absent
counters treated as 0, and `normalization_events` affects neither the total
nor anything displayed. -/
theorem C10_quality_report_view :
    dataQualityReport none = none ∧
    (∀ r : FrontendReport, r.summary = false →
      dataQualityReport (some r) = none) ∧
    (∀ r : FrontendReport, r.summary = true →
      dataQualityReport (some r) = some
        { totalIssues := r.missing_values.getD 0 + r.unparseable_dates.getD 0
            + r.unparseable_numbers.getD 0
          itemsShown := r.total_items.getD 0
          missingShown := r.missing_values.getD 0
          badDatesShown := r.unparseable_dates.getD 0
          badNumbersShown := r.unparseable_numbers.getD 0 }) ∧
    (∀ (r : FrontendReport) (n : Option Nat),
      dataQualityReport (some { r with normalization_events := n }) =
        dataQualityReport (some r)) := by
  refine ⟨rfl, ?_, ?_, ?_⟩
  · intro r h
    simp [dataQualityReport, h]
  · intro r h
    simp [dataQualityReport, h]
  · intro r n
    cases h : r.summary <;> simp [dataQualityReport, h]

/-- Witness for C10: a concrete flagged report with an absent counter shows
the total of the three issue counters, and a concrete unflagged report is
hidden. -/
theorem C10_quality_report_witness :
    dataQualityReport (some ⟨true, some 10, some 2, none, some 4, some 9⟩) =
      some { totalIssues := 6, itemsShown := 10, missingShown := 2,
             badDatesShown := 0, badNumbersShown := 4 } ∧
    dataQualityReport (some ⟨false, some 10, some 2, none, some 4, some 9⟩) =
      none := by
  constructor
  · have h := C10_quality_report_view.2.2.1
      ⟨true, some 10, some 2, none, some 4, some 9⟩ rfl
    simpa using h
  · exact C10_quality_report_view.2.1
      ⟨false, some 10, some 2, none, some 4, some 9⟩ rfl

end MondayBI
